import Mathlib

/-!
Verification of the text-parsing core of a football-results parser
(`parser.py`): the score-blob grammar (`parse_score_blob`), the single-line
match tokenizer (`parse_match_line`), and the stateful multi-line
Champions-League parser (`parse_champions_league_txt_file`).

Strings are modelled as `List Char`.  The Python `re` module is modelled by
a small backtracking engine (`reM`) whose alternative ordering mirrors
Python's: greedy quantifiers try the longest repetition first, lazy ones the
shortest, alternation prefers the left branch, and concatenation backtracks
the rightmost item fastest.  All quantifiers in the source's patterns range
over single-character classes, so the engine restricts repetition to
character classes, which keeps every definition structurally recursive.
Character classes (`\d`, `\s`, `\w`) are modelled over ASCII, which covers
the source's inputs.
-/

/-- Output tokens are ASCII; `\d` in Python `re` on these inputs. -/
def isDigitC (c : Char) : Bool := c.isDigit

/-- Python `\s` / `str.strip` whitespace, ASCII range. -/
def isWsC (c : Char) : Bool :=
  c = ' ' || c = '\t' || c = '\n' || c = '\r' || c = '\x0b' || c = '\x0c'

/-- Python `\w` (word character), ASCII range. -/
def isWordC (c : Char) : Bool := c.isAlphanum || c = '_'

/-- ASCII letter, for `[A-Za-z]`. -/
def isAlphaC (c : Char) : Bool := c.isAlpha

/-- Shorthand turning a string literal into the `List Char` model. -/
def cl (s : String) : List Char := s.toList

/-- Regular expressions as used by the source.  Repetition (`starG` greedy,
`starL` lazy) is over a character class, which is all the source needs. -/
inductive RE where
  | eps
  | chr (p : Char → Bool)
  | cat (a b : RE)
  | alt (a b : RE)
  | grp (n : Nat) (r : RE)
  | starG (p : Char → Bool)
  | starL (p : Char → Bool)
  | wordB
  | eos

/-- Captured groups: (group index, start offset, end offset). -/
abbrev Caps := List (Nat × Nat × Nat)

/-- First success of `f` over a list of candidates, in order. -/
def firstSome {α : Type} (f : Nat → Option α) : List Nat → Option α
  | [] => none
  | n :: ns => (f n).orElse (fun _ => firstSome f ns)

/-- Candidate repetition counts for a greedy star: longest first. -/
def descList (m : Nat) : List Nat := (List.range (m + 1)).reverse

/-- Candidate repetition counts for a lazy star: shortest first. -/
def ascList (m : Nat) : List Nat := List.range (m + 1)

/-- Length of the run of characters satisfying `p` starting at `i`. -/
def maxRun (s : List Char) (p : Char → Bool) (i : Nat) : Nat :=
  ((s.drop i).takeWhile p).length

/-- Is the character at offset `j` a word character (false past the ends)? -/
def wAt (s : List Char) (j : Nat) : Bool :=
  match s[j]? with
  | some c => isWordC c
  | none => false

/-- Python `\b`: a word/non-word transition at offset `i`. -/
def wordBd (s : List Char) (i : Nat) : Bool :=
  (decide (i ≠ 0) && wAt s (i - 1)) != wAt s i

/-- Backtracking matcher in continuation style.  `reM s r i cs k` tries all
ways `r` can match `s` starting at offset `i` (in Python `re` preference
order) and returns the first for which the continuation `k` succeeds. -/
def reM {α : Type} (s : List Char) :
    RE → Nat → Caps → (Nat → Caps → Option α) → Option α
  | .eps, i, cs, k => k i cs
  | .chr p, i, cs, k =>
    match s[i]? with
    | some c => if p c then k (i + 1) cs else none
    | none => none
  | .cat a b, i, cs, k => reM s a i cs (fun j cs2 => reM s b j cs2 k)
  | .alt a b, i, cs, k => (reM s a i cs k).orElse (fun _ => reM s b i cs k)
  | .grp n r, i, cs, k => reM s r i cs (fun j cs2 => k j ((n, i, j) :: cs2))
  | .starG p, i, cs, k => firstSome (fun l => k (i + l) cs) (descList (maxRun s p i))
  | .starL p, i, cs, k => firstSome (fun l => k (i + l) cs) (ascList (maxRun s p i))
  | .wordB, i, cs, k => if wordBd s i then k i cs else none
  | .eos, i, cs, k => if i = s.length then k i cs else none

/-- Python `re.match`: anchored prefix match; returns (end offset, groups). -/
def reMatchEnd (r : RE) (s : List Char) : Option (Nat × Caps) :=
  reM s r 0 [] (fun i cs => some (i, cs))

/-- First match at or after offset `p` (leftmost): (start, end, groups). -/
def reSearchPos (r : RE) (s : List Char) (p : Nat) : Option (Nat × Nat × Caps) :=
  firstSome (fun d => reM s r (p + d) [] (fun j cs => some (p + d, j, cs)))
    (ascList (s.length - p))

/-- Python `re.search`. -/
def reSearch (r : RE) (s : List Char) : Option (Nat × Nat × Caps) :=
  reSearchPos r s 0

/-- Python `re.finditer`: non-overlapping matches, scanning left to right.
The fuel is an upper bound on the number of matches (starts strictly
increase, and every pattern in the source consumes at least one character),
so `s.length + 1` fuel is never exhausted early. -/
def reFindAllAux (r : RE) (s : List Char) : Nat → Nat → List (Nat × Nat × Caps)
  | 0, _ => []
  | fuel + 1, p =>
    match reSearchPos r s p with
    | none => []
    | some (st, en, cs) => (st, en, cs) :: reFindAllAux r s fuel (max en (st + 1))

/-- All matches of `r` in `s`, in order. -/
def reFindAll (r : RE) (s : List Char) : List (Nat × Nat × Caps) :=
  reFindAllAux r s (s.length + 1) 0

/-- Substring `s[a:b]`. -/
def sliceL (s : List Char) (a b : Nat) : List Char := (s.drop a).take (b - a)

/-- Offsets of capture group `n` (first capture recorded). -/
def capGet (cs : Caps) (n : Nat) : Option (Nat × Nat) :=
  match cs.find? (fun e => e.1 = n) with
  | some e => some (e.2.1, e.2.2)
  | none => none

/-- Text of capture group `n` ("" when the group did not participate). -/
def capText (s : List Char) (cs : Caps) (n : Nat) : List Char :=
  match capGet cs n with
  | some (a, b) => sliceL s a b
  | none => []

/-- Python `re.sub`: replace every match of `r` (as found by `finditer`)
with `repl`, splicing the unmatched stretches back together. -/
def spliceAll (s repl : List Char) : Nat → List (Nat × Nat × Caps) → List Char
  | pos, [] => s.drop pos
  | pos, (st, en, _) :: ms => sliceL s pos st ++ repl ++ spliceAll s repl en ms

def reSubAll (r : RE) (repl s : List Char) : List Char :=
  spliceAll s repl 0 (reFindAll r s)

/-- One-or-more, greedy (`+`). -/
def rePlusG (p : Char → Bool) : RE := .cat (.chr p) (.starG p)

/-- One-or-more, lazy (`+?`). -/
def rePlusL (p : Char → Bool) : RE := .cat (.chr p) (.starL p)

/-- Zero-or-one, greedy (`?`). -/
def reOpt (r : RE) : RE := .alt r .eps

/-- A single literal character. -/
def reChr (c : Char) : RE := .chr (fun x => x = c)

/-- Python `str.lstrip()`. -/
def pyLstrip (s : List Char) : List Char := s.dropWhile isWsC

/-- Python `str.rstrip()`. -/
def pyRstrip (s : List Char) : List Char := (s.reverse.dropWhile isWsC).reverse

/-- Python `str.strip()`. -/
def pyStrip (s : List Char) : List Char := pyLstrip (pyRstrip s)

/-- Python `int()` on a run of ASCII digits. -/
def pyInt (s : List Char) : Nat :=
  s.foldl (fun a c => a * 10 + (c.toNat - 48)) 0

/-- Python `str.rfind(pat)`: highest offset where `pat` occurs. -/
def rfindSub (pat s : List Char) : Option Nat :=
  firstSome (fun i => if pat.isPrefixOf (s.drop i) then some i else none)
    (descList s.length)

/-- Python `pat in s` (substring containment). -/
def containsSub (pat s : List Char) : Bool :=
  (List.range (s.length + 1)).any (fun i => pat.isPrefixOf (s.drop i))

/-- Does `s` start with character `c`? -/
def startsWithC (s : List Char) (c : Char) : Bool :=
  match s with
  | c' :: _ => c' = c
  | [] => false

/-- Python `venue_raw.split(",", 1)` when a comma is present. -/
def splitFirstComma (s : List Char) : Option (List Char × List Char) :=
  match s.findIdx? (fun c => c = ',') with
  | some i => some (s.take i, s.drop (i + 1))
  | none => none

/-- Prepend a character to the first piece of a split result. -/
def consHead (c : Char) : List (List Char) → List (List Char)
  | [] => [[c]]
  | p :: ps => (c :: p) :: ps

/-- Python `re.split(r"\s{2,}", s)`: pieces between maximal whitespace runs
of length at least 2 (pieces at the ends may be empty, as in Python).  The
`skip` flag means the scan is inside a delimiter run already accounted
for. -/
def splitWs2M : Bool → List Char → List (List Char)
  | _, [] => [[]]
  | true, c :: cs =>
    if isWsC c then splitWs2M true cs else consHead c (splitWs2M false cs)
  | false, c :: cs =>
    if isWsC c then
      match cs with
      | c2 :: _ =>
        if isWsC c2 then [] :: splitWs2M true cs
        else consHead c (splitWs2M false cs)
      | [] => [[c]]
    else consHead c (splitWs2M false cs)

def splitWs2 (s : List Char) : List (List Char) := splitWs2M false s

/-- Python `re.sub(r"\s{2,}", " ", s)`: each maximal whitespace run of
length at least 2 becomes a single space; single whitespace characters are
kept as they are.  The `skip` flag means the scan is inside a run whose
single space has already been emitted. -/
def collapseWsM : Bool → List Char → List Char
  | _, [] => []
  | true, c :: cs =>
    if isWsC c then collapseWsM true cs else c :: collapseWsM false cs
  | false, c :: cs =>
    if isWsC c then
      match cs with
      | c2 :: _ =>
        if isWsC c2 then ' ' :: collapseWsM true cs
        else c :: collapseWsM false cs
      | [] => [c]
    else c :: collapseWsM false cs

def collapseWs (s : List Char) : List Char := collapseWsM false s

/-!
Score-blob grammar (`parse_score_blob` in `parser.py`).

Module-level patterns of the source:
  score_pair = (\d+)\s*-\s*(\d+)
  ht_paren   = \(([^)]+)\)
  has_pen    = \bpen\.?\b        (case-insensitive)
  has_aet    = \ba\.?e\.?t\.?\b  (case-insensitive)
-/

def scorePairRE : RE :=
  .cat (.grp 1 (rePlusG isDigitC))
    (.cat (.starG isWsC)
      (.cat (reChr '-')
        (.cat (.starG isWsC) (.grp 2 (rePlusG isDigitC)))))

def htParenRE : RE :=
  .cat (reChr '(')
    (.cat (.grp 1 (rePlusG (fun c => c ≠ ')'))) (reChr ')'))

/-- Case-insensitive literal letter. -/
def reChrI (c : Char) : RE := .chr (fun x => x.toLower = c)

def hasPenRE : RE :=
  .cat .wordB
    (.cat (reChrI 'p')
      (.cat (reChrI 'e')
        (.cat (reChrI 'n')
          (.cat (reOpt (reChr '.')) .wordB))))

def hasAetRE : RE :=
  .cat .wordB
    (.cat (reChrI 'a')
      (.cat (reOpt (reChr '.'))
        (.cat (reChrI 'e')
          (.cat (reOpt (reChr '.'))
            (.cat (reChrI 't')
              (.cat (reOpt (reChr '.')) .wordB))))))

/-- The result dict of `parse_score_blob`: ft/aet/pen home and away values
plus the raw half-time text, each `None` when absent. -/
structure ScoreOut where
  ft_home : Option Nat
  ft_away : Option Nat
  aet_home : Option Nat
  aet_away : Option Nat
  pen_home : Option Nat
  pen_away : Option Nat
  ht_raw : Option (List Char)
deriving DecidableEq

/-- `b = blob.strip()` at the top of `parse_score_blob`. -/
def sbStripped (blob : List Char) : List Char := pyStrip blob

/-- `ht_paren.search(b)` on the stripped blob. -/
def sbHtSearch (blob : List Char) : Option (Nat × Nat × Caps) :=
  reSearch htParenRE (sbStripped blob)

/-- `out["ht_raw"]`: the first parenthesized group's inner text, stripped
(set only when such a group exists). -/
def sbHtRaw (blob : List Char) : Option (List Char) :=
  match sbHtSearch blob with
  | some (_, _, cs) => some (pyStrip (capText (sbStripped blob) cs 1))
  | none => none

/-- The working text: when a parenthesized group exists, the source runs
`b = ht_paren.sub(" ", b).strip()`, replacing every parenthesized group by
a single space; otherwise `b` is left as the stripped blob. -/
def sbWorking (blob : List Char) : List Char :=
  match sbHtSearch blob with
  | some _ => pyStrip (reSubAll htParenRE (cl " ") (sbStripped blob))
  | none => sbStripped blob

/-- `pen_flag = bool(has_pen.search(b))`. -/
def sbPen (blob : List Char) : Bool := (reSearch hasPenRE (sbWorking blob)).isSome

/-- `aet_flag = bool(has_aet.search(b))`. -/
def sbAet (blob : List Char) : Bool := (reSearch hasAetRE (sbWorking blob)).isSome

/-- `nums = [tuple(map(int, m.groups())) for m in score_pair.finditer(b)]`. -/
def sbNums (blob : List Char) : List (Nat × Nat) :=
  (reFindAll scorePairRE (sbWorking blob)).map
    (fun m => (pyInt (capText (sbWorking blob) m.2.2 1),
               pyInt (capText (sbWorking blob) m.2.2 2)))

/-- The all-unset dict with `ht_raw` preset, as built at the top of
`parse_score_blob`. -/
def sbInitOut (ht : Option (List Char)) : ScoreOut :=
  ⟨none, none, none, none, none, none, ht⟩

/-- The `if pen_flag and len(nums) >= 2 / elif aet_flag ... / elif ... `
interpretation chain of `parse_score_blob`. -/
def scoreBranch (pen aet : Bool) (nums : List (Nat × Nat)) (o : ScoreOut) :
    ScoreOut :=
  if pen = true ∧ 2 ≤ nums.length then
    { o with pen_home := some (nums.getD 0 (0, 0)).1,
             pen_away := some (nums.getD 0 (0, 0)).2,
             aet_home := some (nums.getD 1 (0, 0)).1,
             aet_away := some (nums.getD 1 (0, 0)).2 }
  else if aet = true ∧ 1 ≤ nums.length then
    { o with aet_home := some (nums.getD 0 (0, 0)).1,
             aet_away := some (nums.getD 0 (0, 0)).2 }
  else if 1 ≤ nums.length then
    { o with ft_home := some (nums.getD 0 (0, 0)).1,
             ft_away := some (nums.getD 0 (0, 0)).2 }
  else o

/-- The final supplement of `parse_score_blob`: if `ft_home` is `None` and
`aet_home` is not, copy the a.e.t. pair into the full-time fields. -/
def scoreBackfill (o : ScoreOut) : ScoreOut :=
  if o.ft_home = none ∧ o.aet_home ≠ none then
    { o with ft_home := o.aet_home, ft_away := o.aet_away }
  else o

/-- `parse_score_blob` from `parser.py`. -/
def parse_score_blob (blob : List Char) : ScoreOut :=
  scoreBackfill
    (scoreBranch (sbPen blob) (sbAet blob) (sbNums blob)
      (sbInitOut (sbHtRaw blob)))

-- Sanity checks against the spec examples (section 8 of the spec).
example : parse_score_blob (cl "2-1 (1-0)") =
    ⟨some 2, some 1, none, none, none, none, some (cl "1-0")⟩ := by decide
example : parse_score_blob (cl "4-2 pen. 3-3 a.e.t. (2-2, 2-0)") =
    ⟨some 3, some 3, some 3, some 3, some 4, some 2, some (cl "2-2, 2-0")⟩ := by decide
example : parse_score_blob (cl "0-0 a.e.t.") =
    ⟨some 0, some 0, some 0, some 0, none, none, none⟩ := by decide
example : parse_score_blob (cl "(abc)") =
    ⟨none, none, none, none, none, none, some (cl "abc")⟩ := by decide
example : parse_score_blob (cl "(a) (2-2)") =
    ⟨none, none, none, none, none, none, some (cl "a")⟩ := by decide
example : parse_score_blob (cl "1(x)-2") =
    ⟨some 1, some 2, none, none, none, none, some (cl "x")⟩ := by decide
example : sbNums (cl "3-0 pen. 0-0 a.e.t. (0-0, 0-0)") = [(3,0),(0,0)] := by decide

/-!
Single-line match tokenizer (`parse_match_line` in `parser.py`).

  pre_head = ^\((?P<no>\d+)\)\s+(?P<dow>[A-Za-z]{3})\s+
             (?P<md>[A-Za-z]{3}/\d{1,2})\s+(?P<time>\d{1,2}:\d{2})\s+
(groups numbered 1..4 here).
-/

/-- `\d{1,2}` (greedy: two digits preferred). -/
def reD12 : RE := .cat (.chr isDigitC) (reOpt (.chr isDigitC))

def preHeadRE : RE :=
  .cat (reChr '(')
    (.cat (.grp 1 (rePlusG isDigitC))
      (.cat (reChr ')')
        (.cat (rePlusG isWsC)
          (.cat (.grp 2 (.cat (.chr isAlphaC) (.cat (.chr isAlphaC) (.chr isAlphaC))))
            (.cat (rePlusG isWsC)
              (.cat (.grp 3 (.cat (.chr isAlphaC)
                      (.cat (.chr isAlphaC)
                        (.cat (.chr isAlphaC) (.cat (reChr '/') reD12)))))
                (.cat (rePlusG isWsC)
                  (.cat (.grp 4 (.cat reD12
                          (.cat (reChr ':') (.cat (.chr isDigitC) (.chr isDigitC)))))
                    (rePlusG isWsC)))))))))

/-- The `" @ "` venue separator. -/
def atSep : List Char := cl " @ "

/-- The record returned by `parse_match_line`.  The Python dict spreads the
`parse_score_blob` result into the same dict; here it is kept as a nested
`score` field with identical content. -/
structure MatchRow where
  match_no : Nat
  dow : List Char
  month_day : List Char
  time_local : List Char
  home : List Char
  away : List Char
  stadium : List Char
  city : Option (List Char)
  score_blob : List Char
  score : ScoreOut
deriving DecidableEq

/-- `parse_match_line` from `parser.py`.  The inner `list(...)[-1]` on the
defensive single-part branch cannot fail (a score pair was already found in
`before_at`, hence in `pre_at_tail`); the unreachable `none` fallback keeps
the definition total. -/
def parse_match_line (line : List Char) : Option MatchRow :=
  match reMatchEnd preHeadRE line with
  | none => none
  | some (e, cs) =>
    let rest := pyRstrip (line.drop e)
    match rfindSub atSep rest with
    | none => none
    | some atIdx =>
      let before_at := pyRstrip (rest.take atIdx)
      let venue_raw := pyStrip (rest.drop (atIdx + 3))
      match reSearch scorePairRE before_at with
      | none => none
      | some (start, _, _) =>
        let home := pyStrip (before_at.take start)
        let pre_at_tail := pyStrip (before_at.drop start)
        let parts := splitWs2 pre_at_tail
        let blobAway : Option (List Char × List Char) :=
          if parts.length = 1 then
            match (reFindAll scorePairRE pre_at_tail).getLast? with
            | some (_, en, _) =>
              some (pyStrip (pre_at_tail.take en), pyStrip (pre_at_tail.drop en))
            | none => none
          else
            some (pyStrip (List.intercalate (cl " ") parts.dropLast),
                  pyStrip (parts.getLastD []))
        match blobAway with
        | none => none
        | some (score_blob, away) =>
          let stCity : List Char × Option (List Char) :=
            match splitFirstComma venue_raw with
            | some (a, b) => (pyStrip a, some (pyStrip b))
            | none => (venue_raw, none)
          some { match_no := pyInt (capText line cs 1),
                 dow := capText line cs 2,
                 month_day := capText line cs 3,
                 time_local := capText line cs 4,
                 home := collapseWs home,
                 away := collapseWs away,
                 stadium := stCity.1,
                 city := stCity.2,
                 score_blob := score_blob,
                 score := parse_score_blob score_blob }

-- Sanity checks against the spec examples (section 8 of the spec).
example : parse_match_line (cl "(1) Fri Jun/14 15:00 Brazil 3-1 (1-0)  Croatia @ Arena, Sao Paulo") =
    some ⟨1, cl "Fri", cl "Jun/14", cl "15:00", cl "Brazil", cl "Croatia",
          cl "Arena", some (cl "Sao Paulo"), cl "3-1 (1-0)",
          ⟨some 3, some 1, none, none, none, none, some (cl "1-0")⟩⟩ := by decide
example : parse_match_line (cl "no preamble here") = none := by decide
example : parse_match_line (cl "(1) Fri Jun/14 15:00 Brazil 3-1  Croatia") = none := by decide
example : parse_match_line (cl "(1) Fri Jun/14 15:00 Brazil v Croatia @ Arena") = none := by decide
example : (parse_match_line (cl "(1) Fri Jun/14 15:00 1-2  Away @ Stad")).map (fun r => r.home) =
    some [] := by decide
example : (parse_match_line (cl "(1) Fri Jun/14 15:00 Home Team 1-2 @ Stad")).map (fun r => r.away) =
    some [] := by decide

/-!
Stateful multi-line parser (`parse_champions_league_txt_file` in
`parser.py`).  The file-handle iteration is modelled as a list of lines;
the `source_file` tag (the file's name, an I/O detail) is not modelled.

Date line pattern:  ^\s+(\w+)\s+(\w+)/(\d{1,2})(?:\s+(\d{4}))?
Match line pattern: ^\s+(?:(\d{1,2}\.\d{2})\s+)?(.+?)\s+v\s+(.+?)\s+
                    (\d+)-(\d+)(?:\s+\((\d+)-(\d+)\))?(?:\s+(.+))?$
-/

def MONTH_MAP : List (List Char × Nat) :=
  [(cl "Jan", 1), (cl "Feb", 2), (cl "Mar", 3), (cl "Apr", 4),
   (cl "May", 5), (cl "Jun", 6), (cl "Jul", 7), (cl "Aug", 8),
   (cl "Sep", 9), (cl "Oct", 10), (cl "Nov", 11), (cl "Dec", 12)]

def monthMap (s : List Char) : Option Nat :=
  match MONTH_MAP.find? (fun e => e.1 = s) with
  | some e => some e.2
  | none => none

def dateRE : RE :=
  .cat (rePlusG isWsC)
    (.cat (.grp 1 (rePlusG isWordC))
      (.cat (rePlusG isWsC)
        (.cat (.grp 2 (rePlusG isWordC))
          (.cat (reChr '/')
            (.cat (.grp 3 reD12)
              (reOpt (.cat (rePlusG isWsC)
                (.grp 4 (.cat (.chr isDigitC)
                  (.cat (.chr isDigitC)
                    (.cat (.chr isDigitC) (.chr isDigitC))))))))))))

/-- `.` in the source's patterns (the lines contain no newline). -/
def isDotC (c : Char) : Bool := c ≠ '\n'

def clMatchRE : RE :=
  .cat (rePlusG isWsC)
    (.cat (reOpt (.cat (.grp 1 (.cat reD12
              (.cat (reChr '.') (.cat (.chr isDigitC) (.chr isDigitC)))))
            (rePlusG isWsC)))
      (.cat (.grp 2 (rePlusL isDotC))
        (.cat (rePlusG isWsC)
          (.cat (reChr 'v')
            (.cat (rePlusG isWsC)
              (.cat (.grp 3 (rePlusL isDotC))
                (.cat (rePlusG isWsC)
                  (.cat (.grp 4 (rePlusG isDigitC))
                    (.cat (reChr '-')
                      (.cat (.grp 5 (rePlusG isDigitC))
                        (.cat (reOpt (.cat (rePlusG isWsC)
                                (.cat (reChr '(')
                                  (.cat (.grp 6 (rePlusG isDigitC))
                                    (.cat (reChr '-')
                                      (.cat (.grp 7 (rePlusG isDigitC))
                                        (reChr ')')))))))
                          (.cat (reOpt (.cat (rePlusG isWsC)
                                  (.grp 8 (rePlusG isDotC))))
                            .eos))))))))))))

/-- `re.sub(r"\s*\([^)]+\)\s*$", "", part)`: the trailing parenthesized
country-code suffix. -/
def countryRE : RE :=
  .cat (.starG isWsC)
    (.cat (reChr '(')
      (.cat (rePlusG (fun c => c ≠ ')'))
        (.cat (reChr ')') (.cat (.starG isWsC) .eos))))

def stripCountry (part : List Char) : List Char :=
  pyStrip (reSubAll countryRE [] part)

/-- `int(season.split("-")[0])`. -/
def startYearOf (season : List Char) : Nat :=
  pyInt (season.takeWhile (fun c => c ≠ '-'))

/-- The per-scan mutable state of `parse_champions_league_txt_file`.  A
date is modelled as the (year, month, day) triple handed to `dt.date`. -/
structure CLState where
  current_date : Option (Nat × Nat × Nat)
  current_stage : Option (List Char)
  current_section : Option (List Char)
deriving DecidableEq

/-- One emitted row of `parse_champions_league_txt_file`. -/
structure CLRow where
  season : List Char
  date : Nat × Nat × Nat
  time : Option (List Char)
  stage : Option (List Char)
  sectionL : Option (List Char) -- the `section` column (`section` is a Lean keyword)
  home_team : List Char
  away_team : List Char
  home_goals : Nat
  away_goals : Nat
  ht_home : Option Nat
  ht_away : Option Nat
  has_penalty : Bool
  has_aet : Bool
deriving DecidableEq

/-- The `"Group" in current_section / elif ...` stage classification chain
for `»` section-header lines. -/
def stageOf (sec : List Char) : List Char :=
  if containsSub (cl "Group") sec then cl "Group Stage"
  else if containsSub (cl "Round of 16") sec || containsSub (cl "Round of") sec then
    cl "Round of 16"
  else if containsSub (cl "Quarter") sec || containsSub (cl "Quarterfinals") sec then
    cl "Quarterfinals"
  else if containsSub (cl "Semi") sec || containsSub (cl "Semifinals") sec then
    cl "Semifinals"
  else if containsSub (cl "Final") sec then cl "Final"
  else cl "Other"

/-- The row built in the match-line branch, given the rstripped line `s`,
its match captures `cs` and the current date `d`. -/
def clRow (season s : List Char) (cs : Caps) (st : CLState)
    (d : Nat × Nat × Nat) : CLRow :=
  { season := season,
    date := d,
    time := match capGet cs 1 with
            | some _ => some (capText s cs 1)
            | none => none,
    stage := st.current_stage,
    sectionL := st.current_section,
    home_team := stripCountry (capText s cs 2),
    away_team := stripCountry (capText s cs 3),
    home_goals := pyInt (capText s cs 4),
    away_goals := pyInt (capText s cs 5),
    ht_home := match capGet cs 6 with
               | some _ => some (pyInt (capText s cs 6))
               | none => none,
    ht_away := match capGet cs 7 with
               | some _ => some (pyInt (capText s cs 7))
               | none => none,
    has_penalty := match capGet cs 8 with
                   | some _ => (reSearch hasPenRE (capText s cs 8)).isSome
                   | none => false,
    has_aet := match capGet cs 8 with
               | some _ => (reSearch hasAetRE (capText s cs 8)).isSome
               | none => false }

/-- One iteration of the `for line in f` loop: the next state and the row
emitted for this line, if any. -/
def clStep (season : List Char) (st : CLState) (line0 : List Char) :
    CLState × Option CLRow :=
  let s := pyRstrip line0
  if s.isEmpty then (st, none)
  else if startsWithC s '=' || startsWithC s '#' then (st, none)
  else if startsWithC s '»' then
    let sec := pyStrip (s.filter (fun c => c ≠ '»'))
    ({ st with current_section := some sec, current_stage := some (stageOf sec) },
     none)
  else
    match reMatchEnd dateRE s with
    | some (_, cs) =>
      match monthMap (capText s cs 2) with
      | none => (st, none)
      | some month =>
        let day := pyInt (capText s cs 3)
        let year := match capGet cs 4 with
          | some _ => pyInt (capText s cs 4)
          | none =>
            if month < 7 then startYearOf season + 1 else startYearOf season
        ({ st with current_date := some (year, month, day) }, none)
    | none =>
      match reMatchEnd clMatchRE s with
      | some (_, cs) =>
        match st.current_date with
        | some d => (st, some (clRow season s cs st d))
        | none => (st, none)
      | none => (st, none)

/-- The rows the scan emits from `lines` starting in state `st`. -/
def clScanRows (season : List Char) : List (List Char) → CLState → List CLRow
  | [], _ => []
  | l :: ls, st =>
    ((clStep season st l).2.toList) ++ clScanRows season ls (clStep season st l).1

/-- The state after scanning `lines` from state `st`. -/
def clScanSt (season : List Char) : List (List Char) → CLState → CLState
  | [], st => st
  | l :: ls, st => clScanSt season ls (clStep season st l).1

/-- `parse_champions_league_txt_file` (rows of the returned DataFrame). -/
def parse_champions_league_txt_file
    (lines : List (List Char)) (season : List Char) : List CLRow :=
  clScanRows season lines ⟨none, none, none⟩

-- Sanity checks against the spec examples (section 8 of the spec).
example : parse_champions_league_txt_file
    [cl "» Group A", cl "  Wed Sep/14 2011", cl "    20.45  Team A (POR)   v Team B (ESP)         1-1 (0-0)"]
    (cl "2011-12") =
    [⟨cl "2011-12", (2011, 9, 14), some (cl "20.45"), some (cl "Group Stage"),
      some (cl "Group A"), cl "Team A", cl "Team B", 1, 1, some 0, some 0,
      false, false⟩] := by decide
example : parse_champions_league_txt_file
    [cl "  A v B 1-0", cl "  Wed Jan/14", cl "  A v B 2-1 aet"] (cl "2011-12") =
    [⟨cl "2011-12", (2012, 1, 14), none, none, none, cl "A", cl "B", 2, 1,
      none, none, false, true⟩] := by decide

/-!
Helper lemmas about the interpretation chain of `parse_score_blob`.
-/

theorem parse_score_blob_eq (blob : List Char) :
    parse_score_blob blob =
      scoreBackfill (scoreBranch (sbPen blob) (sbAet blob) (sbNums blob)
        (sbInitOut (sbHtRaw blob))) := rfl

theorem scoreBackfill_pen (o : ScoreOut) :
    (scoreBackfill o).pen_home = o.pen_home ∧
    (scoreBackfill o).pen_away = o.pen_away ∧
    (scoreBackfill o).aet_home = o.aet_home ∧
    (scoreBackfill o).aet_away = o.aet_away ∧
    (scoreBackfill o).ht_raw = o.ht_raw := by
  unfold scoreBackfill
  split <;> simp

/-- C1 helper: the pen branch of the chain. -/
theorem scoreBranch_pen (a : Bool) (p0 p1 : Nat × Nat) (tl : List (Nat × Nat))
    (o : ScoreOut) :
    scoreBranch true a (p0 :: p1 :: tl) o =
      { o with pen_home := some p0.1, pen_away := some p0.2,
               aet_home := some p1.1, aet_away := some p1.2 } := by
  unfold scoreBranch
  rw [if_pos]
  · simp
  · simp

/-- C1 helper: the aet branch of the chain. -/
theorem scoreBranch_aet (p : Bool) (nums : List (Nat × Nat)) (p0 : Nat × Nat)
    (tl : List (Nat × Nat)) (o : ScoreOut)
    (hne : ¬(p = true ∧ 2 ≤ nums.length)) (hn : nums = p0 :: tl) :
    scoreBranch p true nums o =
      { o with aet_home := some p0.1, aet_away := some p0.2 } := by
  subst hn
  unfold scoreBranch
  rw [if_neg hne, if_pos (⟨rfl, by simp⟩ : true = true ∧ 1 ≤ (p0 :: tl).length)]
  simp

/-- C1 helper: the regulation branch of the chain. -/
theorem scoreBranch_ft (p a : Bool) (nums : List (Nat × Nat)) (p0 : Nat × Nat)
    (tl : List (Nat × Nat)) (o : ScoreOut)
    (hne1 : ¬(p = true ∧ 2 ≤ nums.length))
    (hne2 : ¬(a = true ∧ 1 ≤ nums.length)) (hn : nums = p0 :: tl) :
    scoreBranch p a nums o =
      { o with ft_home := some p0.1, ft_away := some p0.2 } := by
  subst hn
  unfold scoreBranch
  rw [if_neg hne1, if_neg hne2, if_pos (by simp : 1 ≤ (p0 :: tl).length)]
  simp

/-- C1 helper: the empty chain leaves everything as it was. -/
theorem scoreBranch_none (p a : Bool) (o : ScoreOut) :
    scoreBranch p a [] o = o := by
  unfold scoreBranch
  simp

/-- C1: `parse_score_blob` assigns the extracted pairs by the priority
pen-with-two-pairs, then aet-with-one-pair, then regulation, else leaves
every score field unset. -/
theorem claim1_branch_priority (blob : List Char) :
    (∀ p0 p1 tl, sbPen blob = true → sbNums blob = p0 :: p1 :: tl →
      (parse_score_blob blob).pen_home = some p0.1 ∧
      (parse_score_blob blob).pen_away = some p0.2 ∧
      (parse_score_blob blob).aet_home = some p1.1 ∧
      (parse_score_blob blob).aet_away = some p1.2) ∧
    (∀ p0 tl, ¬(sbPen blob = true ∧ 2 ≤ (sbNums blob).length) →
      sbAet blob = true → sbNums blob = p0 :: tl →
      (parse_score_blob blob).aet_home = some p0.1 ∧
      (parse_score_blob blob).aet_away = some p0.2) ∧
    (∀ p0 tl, ¬(sbPen blob = true ∧ 2 ≤ (sbNums blob).length) →
      ¬(sbAet blob = true ∧ 1 ≤ (sbNums blob).length) →
      sbNums blob = p0 :: tl →
      (parse_score_blob blob).ft_home = some p0.1 ∧
      (parse_score_blob blob).ft_away = some p0.2) ∧
    (sbNums blob = [] →
      (parse_score_blob blob).ft_home = none ∧
      (parse_score_blob blob).ft_away = none ∧
      (parse_score_blob blob).aet_home = none ∧
      (parse_score_blob blob).aet_away = none ∧
      (parse_score_blob blob).pen_home = none ∧
      (parse_score_blob blob).pen_away = none) := by
  refine ⟨?_, ?_, ?_, ?_⟩
  · intro p0 p1 tl hp hn
    rw [parse_score_blob_eq, hp, hn, scoreBranch_pen]
    unfold scoreBackfill
    split <;> simp
  · intro p0 tl hne ha hn
    rw [parse_score_blob_eq, ha, scoreBranch_aet (sbPen blob) _ p0 tl _ hne hn]
    unfold scoreBackfill
    split <;> simp
  · intro p0 tl hne1 hne2 hn
    rw [parse_score_blob_eq,
      scoreBranch_ft (sbPen blob) (sbAet blob) _ p0 tl _ hne1 hne2 hn]
    unfold scoreBackfill
    split <;> simp_all [sbInitOut]
  · intro hn
    rw [parse_score_blob_eq, hn, scoreBranch_none]
    unfold scoreBackfill
    split <;> simp [sbInitOut]

theorem claim1_branch_priority_w :
    ((parse_score_blob (cl "1-2 pen. 3-4")).pen_home = some 1 ∧
     (parse_score_blob (cl "1-2 pen. 3-4")).pen_away = some 2 ∧
     (parse_score_blob (cl "1-2 pen. 3-4")).aet_home = some 3 ∧
     (parse_score_blob (cl "1-2 pen. 3-4")).aet_away = some 4) ∧
    ((parse_score_blob (cl "1-0 aet")).aet_home = some 1 ∧
     (parse_score_blob (cl "1-0 aet")).aet_away = some 0) ∧
    ((parse_score_blob (cl "2-1")).ft_home = some 2 ∧
     (parse_score_blob (cl "2-1")).ft_away = some 1) ∧
    ((parse_score_blob (cl "abc")).ft_home = none ∧
     (parse_score_blob (cl "abc")).ft_away = none ∧
     (parse_score_blob (cl "abc")).aet_home = none ∧
     (parse_score_blob (cl "abc")).aet_away = none ∧
     (parse_score_blob (cl "abc")).pen_home = none ∧
     (parse_score_blob (cl "abc")).pen_away = none) :=
  ⟨(claim1_branch_priority (cl "1-2 pen. 3-4")).1 (1, 2) (3, 4) []
      (by decide) (by decide),
   (claim1_branch_priority (cl "1-0 aet")).2.1 (1, 0) []
      (by decide) (by decide) (by decide),
   (claim1_branch_priority (cl "2-1")).2.2.1 (2, 1) []
      (by decide) (by decide) (by decide),
   (claim1_branch_priority (cl "abc")).2.2.2 (by decide)⟩

/-- C2: with the pen marker present but exactly one pair, the pen
interpretation is skipped and the single pair falls through: it becomes the
a.e.t. pair when the aet marker is present and the regulation pair
otherwise; it is never discarded. -/
theorem claim2_pen_fallthrough (blob : List Char) (p0 : Nat × Nat)
    (hp : sbPen blob = true) (hn : sbNums blob = [p0]) :
    (parse_score_blob blob).pen_home = none ∧
    (parse_score_blob blob).pen_away = none ∧
    (sbAet blob = true →
      (parse_score_blob blob).aet_home = some p0.1 ∧
      (parse_score_blob blob).aet_away = some p0.2) ∧
    (sbAet blob = false →
      (parse_score_blob blob).ft_home = some p0.1 ∧
      (parse_score_blob blob).ft_away = some p0.2) := by
  have hne : ¬(sbPen blob = true ∧ 2 ≤ (sbNums blob).length) := by
    rw [hn]; simp
  cases ha : sbAet blob with
  | true =>
    have hb := scoreBranch_aet (sbPen blob) (sbNums blob) p0 []
      (sbInitOut (sbHtRaw blob)) hne hn
    rw [parse_score_blob_eq, ha, hb]
    simp [scoreBackfill, sbInitOut]
  | false =>
    have hb := scoreBranch_ft (sbPen blob) false (sbNums blob) p0 []
      (sbInitOut (sbHtRaw blob)) hne (by simp) hn
    rw [parse_score_blob_eq, ha, hb]
    simp [scoreBackfill, sbInitOut]

theorem claim2_pen_fallthrough_w :
    ((parse_score_blob (cl "1-0 pen. aet")).pen_home = none ∧
     (parse_score_blob (cl "1-0 pen. aet")).pen_away = none ∧
     (parse_score_blob (cl "1-0 pen. aet")).aet_home = some 1 ∧
     (parse_score_blob (cl "1-0 pen. aet")).aet_away = some 0) ∧
    ((parse_score_blob (cl "1-0 pen.")).pen_home = none ∧
     (parse_score_blob (cl "1-0 pen.")).pen_away = none ∧
     (parse_score_blob (cl "1-0 pen.")).ft_home = some 1 ∧
     (parse_score_blob (cl "1-0 pen.")).ft_away = some 0) := by
  have h1 := claim2_pen_fallthrough (cl "1-0 pen. aet") (1, 0)
      (by decide) (by decide)
  have h2 := claim2_pen_fallthrough (cl "1-0 pen.") (1, 0)
      (by decide) (by decide)
  exact ⟨⟨h1.1, h1.2.1, h1.2.2.1 (by decide)⟩, h2.1, h2.2.1, h2.2.2.2 (by decide)⟩

/-- C3 counterexample: on "(a) (2-2)" the source removes every
parenthesized group (not only the first), so the pair inside the second
group is not extracted and every score field stays unset; only the claim's
half-time capture survives. -/
theorem claim3_counterexample :
    sbHtRaw (cl "(a) (2-2)") = some (cl "a") ∧
    sbNums (cl "(a) (2-2)") = [] ∧
    parse_score_blob (cl "(a) (2-2)") =
      ⟨none, none, none, none, none, none, some (cl "a")⟩ := by decide

/-- C3 amended: when a parenthesized group exists, `half_time_raw` is the
first group's inner text (stripped), and the working text used for marker
detection and pair extraction is the stripped blob with every parenthesized
group replaced by a single space. -/
theorem claim3_amended (blob : List Char) (st en : Nat) (cs : Caps)
    (h : sbHtSearch blob = some (st, en, cs)) :
    sbHtRaw blob = some (pyStrip (capText (sbStripped blob) cs 1)) ∧
    sbWorking blob = pyStrip (reSubAll htParenRE (cl " ") (sbStripped blob)) := by
  unfold sbHtRaw sbWorking
  rw [h]
  exact ⟨rfl, rfl⟩

theorem claim3_amended_w :
    sbHtRaw (cl "(x) 1-0") =
      some (pyStrip (capText (sbStripped (cl "(x) 1-0")) [(1, 1, 2)] 1)) ∧
    sbWorking (cl "(x) 1-0") =
      pyStrip (reSubAll htParenRE (cl " ") (sbStripped (cl "(x) 1-0"))) :=
  claim3_amended (cl "(x) 1-0") 0 3 [(1, 1, 2)] (by decide)

/-- C4 counterexample: "(abc)" contains no int-int pair anywhere, yet
`half_time_raw` is set (to "abc"), contradicting the claim that it remains
unset. -/
theorem claim4_counterexample :
    reFindAll scorePairRE (cl "(abc)") = [] ∧
    (parse_score_blob (cl "(abc)")).ht_raw = some (cl "abc") := by decide

/-- C4 amended: when the working text (after parenthesis removal) contains
no pair, every score field is unset, and `half_time_raw` is unset exactly
when the input has no parenthesized group. -/
theorem claim4_amended (blob : List Char) (hn : sbNums blob = []) :
    (parse_score_blob blob).ft_home = none ∧
    (parse_score_blob blob).ft_away = none ∧
    (parse_score_blob blob).aet_home = none ∧
    (parse_score_blob blob).aet_away = none ∧
    (parse_score_blob blob).pen_home = none ∧
    (parse_score_blob blob).pen_away = none ∧
    ((parse_score_blob blob).ht_raw = none ↔ sbHtSearch blob = none) := by
  rw [parse_score_blob_eq, hn, scoreBranch_none]
  unfold scoreBackfill
  have hht : (sbInitOut (sbHtRaw blob)).ht_raw = none ↔ sbHtSearch blob = none := by
    unfold sbInitOut sbHtRaw
    cases h : sbHtSearch blob <;> simp
  split <;> simp_all [sbInitOut]

theorem claim4_amended_w :
    (parse_score_blob (cl "(abc)")).ft_home = none ∧
    (parse_score_blob (cl "(abc)")).ft_away = none ∧
    (parse_score_blob (cl "(abc)")).aet_home = none ∧
    (parse_score_blob (cl "(abc)")).aet_away = none ∧
    (parse_score_blob (cl "(abc)")).pen_home = none ∧
    (parse_score_blob (cl "(abc)")).pen_away = none ∧
    ((parse_score_blob (cl "(abc)")).ht_raw = none ↔
      sbHtSearch (cl "(abc)") = none) :=
  claim4_amended (cl "(abc)") (by decide)

/-- C5: if after the interpretation chain the regulation pair is unset but
the a.e.t. pair is set, the regulation fields are backfilled from the
a.e.t. fields; in particular "0-0 a.e.t." yields extra time (0,0),
regulation (0,0), no penalties and no half-time text. -/
theorem claim5_backfill :
    (∀ blob,
      (scoreBranch (sbPen blob) (sbAet blob) (sbNums blob)
        (sbInitOut (sbHtRaw blob))).ft_home = none →
      (scoreBranch (sbPen blob) (sbAet blob) (sbNums blob)
        (sbInitOut (sbHtRaw blob))).aet_home ≠ none →
      parse_score_blob blob =
        { scoreBranch (sbPen blob) (sbAet blob) (sbNums blob)
            (sbInitOut (sbHtRaw blob)) with
          ft_home := (scoreBranch (sbPen blob) (sbAet blob) (sbNums blob)
            (sbInitOut (sbHtRaw blob))).aet_home,
          ft_away := (scoreBranch (sbPen blob) (sbAet blob) (sbNums blob)
            (sbInitOut (sbHtRaw blob))).aet_away }) ∧
    parse_score_blob (cl "0-0 a.e.t.") =
      ⟨some 0, some 0, some 0, some 0, none, none, none⟩ := by
  constructor
  · intro blob h1 h2
    rw [parse_score_blob_eq]
    unfold scoreBackfill
    rw [if_pos ⟨h1, h2⟩]
  · decide

theorem claim5_backfill_w :
    parse_score_blob (cl "0-0 a.e.t.") =
      { scoreBranch (sbPen (cl "0-0 a.e.t.")) (sbAet (cl "0-0 a.e.t."))
          (sbNums (cl "0-0 a.e.t."))
          (sbInitOut (sbHtRaw (cl "0-0 a.e.t."))) with
        ft_home := (scoreBranch (sbPen (cl "0-0 a.e.t."))
          (sbAet (cl "0-0 a.e.t.")) (sbNums (cl "0-0 a.e.t."))
          (sbInitOut (sbHtRaw (cl "0-0 a.e.t.")))).aet_home,
        ft_away := (scoreBranch (sbPen (cl "0-0 a.e.t."))
          (sbAet (cl "0-0 a.e.t.")) (sbNums (cl "0-0 a.e.t."))
          (sbInitOut (sbHtRaw (cl "0-0 a.e.t.")))).aet_away } :=
  claim5_backfill.1 (cl "0-0 a.e.t.") (by decide) (by decide)

/-- C10 helper: the output invariants hold for any flags, pair list and
half-time text. -/
theorem scoreOut_inv (p a : Bool) (nums : List (Nat × Nat))
    (ht : Option (List Char)) :
    ((scoreBackfill (scoreBranch p a nums (sbInitOut ht))).pen_home.isSome = true →
      (scoreBackfill (scoreBranch p a nums (sbInitOut ht))).aet_home.isSome = true) ∧
    ((scoreBackfill (scoreBranch p a nums (sbInitOut ht))).aet_home.isSome = true →
      (scoreBackfill (scoreBranch p a nums (sbInitOut ht))).ft_home.isSome = true) ∧
    ((scoreBackfill (scoreBranch p a nums (sbInitOut ht))).ft_home.isSome =
      (scoreBackfill (scoreBranch p a nums (sbInitOut ht))).ft_away.isSome) ∧
    ((scoreBackfill (scoreBranch p a nums (sbInitOut ht))).aet_home.isSome =
      (scoreBackfill (scoreBranch p a nums (sbInitOut ht))).aet_away.isSome) ∧
    ((scoreBackfill (scoreBranch p a nums (sbInitOut ht))).pen_home.isSome =
      (scoreBackfill (scoreBranch p a nums (sbInitOut ht))).pen_away.isSome) := by
  unfold scoreBranch scoreBackfill sbInitOut
  repeat' split
  all_goals simp_all

/-- C10: in every `parse_score_blob` result, penalties set implies extra
time set, extra time set implies regulation set, and each of the three
pairs has its home and away components set together. -/
theorem claim10_invariants (blob : List Char) :
    ((parse_score_blob blob).pen_home.isSome = true →
      (parse_score_blob blob).aet_home.isSome = true) ∧
    ((parse_score_blob blob).aet_home.isSome = true →
      (parse_score_blob blob).ft_home.isSome = true) ∧
    ((parse_score_blob blob).ft_home.isSome =
      (parse_score_blob blob).ft_away.isSome) ∧
    ((parse_score_blob blob).aet_home.isSome =
      (parse_score_blob blob).aet_away.isSome) ∧
    ((parse_score_blob blob).pen_home.isSome =
      (parse_score_blob blob).pen_away.isSome) := by
  rw [parse_score_blob_eq]
  exact scoreOut_inv (sbPen blob) (sbAet blob) (sbNums blob) (sbHtRaw blob)

theorem claim10_invariants_w :
    (parse_score_blob (cl "4-2 pen. 3-3 a.e.t.")).aet_home.isSome = true ∧
    (parse_score_blob (cl "4-2 pen. 3-3 a.e.t.")).ft_home.isSome = true ∧
    ((parse_score_blob (cl "4-2 pen. 3-3 a.e.t.")).ft_home.isSome =
      (parse_score_blob (cl "4-2 pen. 3-3 a.e.t.")).ft_away.isSome) ∧
    ((parse_score_blob (cl "4-2 pen. 3-3 a.e.t.")).aet_home.isSome =
      (parse_score_blob (cl "4-2 pen. 3-3 a.e.t.")).aet_away.isSome) ∧
    ((parse_score_blob (cl "4-2 pen. 3-3 a.e.t.")).pen_home.isSome =
      (parse_score_blob (cl "4-2 pen. 3-3 a.e.t.")).pen_away.isSome) :=
  ⟨(claim10_invariants (cl "4-2 pen. 3-3 a.e.t.")).1 (by decide),
   (claim10_invariants (cl "4-2 pen. 3-3 a.e.t.")).2.1 (by decide),
   (claim10_invariants (cl "4-2 pen. 3-3 a.e.t.")).2.2.1,
   (claim10_invariants (cl "4-2 pen. 3-3 a.e.t.")).2.2.2.1,
   (claim10_invariants (cl "4-2 pen. 3-3 a.e.t.")).2.2.2.2⟩

/-- C6: `parse_match_line` rejects with the no-match signal (never a
partial record) when the fixed preamble is absent, when the `" @ "` venue
separator is absent, or when no int-int pair occurs before the last
`" @ "`. -/
theorem claim6_reject_total (line : List Char) :
    (reMatchEnd preHeadRE line = none → parse_match_line line = none) ∧
    (∀ e cs, reMatchEnd preHeadRE line = some (e, cs) →
      rfindSub atSep (pyRstrip (line.drop e)) = none →
      parse_match_line line = none) ∧
    (∀ e cs atIdx, reMatchEnd preHeadRE line = some (e, cs) →
      rfindSub atSep (pyRstrip (line.drop e)) = some atIdx →
      reSearch scorePairRE (pyRstrip ((pyRstrip (line.drop e)).take atIdx)) = none →
      parse_match_line line = none) := by
  refine ⟨?_, ?_, ?_⟩
  · intro h
    simp only [parse_match_line, h]
  · intro e cs h1 h2
    simp only [parse_match_line, h1, h2]
  · intro e cs atIdx h1 h2 h3
    simp only [parse_match_line, h1, h2, h3]

theorem claim6_reject_total_w :
    parse_match_line (cl "xyz") = none ∧
    parse_match_line (cl "(1) Fri Jun/14 15:00 foo 1-2") = none ∧
    parse_match_line (cl "(1) Fri Jun/14 15:00 foo v bar @ X") = none :=
  ⟨(claim6_reject_total (cl "xyz")).1 (by decide),
   (claim6_reject_total (cl "(1) Fri Jun/14 15:00 foo 1-2")).2.1
     21 [(4, 15, 20), (3, 8, 14), (2, 4, 7), (1, 1, 2)] (by decide) (by decide),
   (claim6_reject_total (cl "(1) Fri Jun/14 15:00 foo v bar @ X")).2.2
     21 [(4, 15, 20), (3, 8, 14), (2, 4, 7), (1, 1, 2)] 9
     (by decide) (by decide) (by decide)⟩

/-- C7 counterexample: the source can emit records with an empty home
name (score pair immediately after the preamble) or an empty away name
(nothing after the last score pair), contradicting the non-emptiness
half of the claim. -/
theorem claim7_counterexample :
    (parse_match_line (cl "(1) Fri Jun/14 15:00 1-2  Away @ Stad")).map
      (fun r => r.home) = some [] ∧
    (parse_match_line (cl "(1) Fri Jun/14 15:00 Home Team 1-2 @ Stad")).map
      (fun r => r.away) = some [] := by decide

/-- Does the list contain two consecutive whitespace characters? -/
def hasWs2 : List Char → Bool
  | c1 :: c2 :: rest => (isWsC c1 && isWsC c2) || hasWs2 (c2 :: rest)
  | _ => false

/-- True when the list is empty or starts with a non-whitespace char. -/
def headNotWs : List Char → Bool
  | [] => true
  | c :: _ => !isWsC c

theorem hasWs2_cons (c : Char) (t : List Char) :
    hasWs2 (c :: t) = ((isWsC c && !headNotWs t) || hasWs2 t) := by
  cases t with
  | nil => simp [hasWs2, headNotWs]
  | cons d t' => simp [hasWs2, headNotWs]

theorem collapseT_ws (c : Char) (cs : List Char) (h : isWsC c = true) :
    collapseWsM true (c :: cs) = collapseWsM true cs := by
  simp [collapseWsM, h]

theorem collapseT_nws (c : Char) (cs : List Char) (h : isWsC c = false) :
    collapseWsM true (c :: cs) = c :: collapseWsM false cs := by
  simp [collapseWsM, h]

theorem collapseF_nws (c : Char) (cs : List Char) (h : isWsC c = false) :
    collapseWsM false (c :: cs) = c :: collapseWsM false cs := by
  cases cs <;> simp [collapseWsM, h]

theorem collapseF_one (c : Char) :
    collapseWsM false [c] = [c] := by
  by_cases h : isWsC c = true <;> simp [collapseWsM, h]

theorem collapseF_run (c c2 : Char) (cs : List Char)
    (h : isWsC c = true) (h2 : isWsC c2 = true) :
    collapseWsM false (c :: c2 :: cs) = ' ' :: collapseWsM true (c2 :: cs) := by
  simp [collapseWsM, h, h2]

theorem collapseF_wsnws (c c2 : Char) (cs : List Char)
    (h : isWsC c = true) (h2 : isWsC c2 = false) :
    collapseWsM false (c :: c2 :: cs) = c :: collapseWsM false (c2 :: cs) := by
  cases cs <;> simp [collapseWsM, h, h2]

/-- After `collapseWsM` no two consecutive whitespace characters remain,
and in skip mode the output starts with a non-whitespace character. -/
theorem collapseWsM_no2 (s : List Char) :
    (hasWs2 (collapseWsM true s) = false ∧
      headNotWs (collapseWsM true s) = true) ∧
    hasWs2 (collapseWsM false s) = false := by
  induction s with
  | nil => simp [collapseWsM, hasWs2, headNotWs]
  | cons c cs ih =>
    obtain ⟨⟨iht, ihth⟩, ihf⟩ := ih
    by_cases hw : isWsC c = true
    · refine ⟨⟨?_, ?_⟩, ?_⟩
      · rw [collapseT_ws c cs hw]; exact iht
      · rw [collapseT_ws c cs hw]; exact ihth
      · cases cs with
        | nil => simp [collapseF_one, hasWs2]
        | cons c2 cs' =>
          by_cases hw2 : isWsC c2 = true
          · rw [collapseF_run c c2 cs' hw hw2, hasWs2_cons, iht, ihth]
            simp
          · have hw2' : isWsC c2 = false := by simpa using hw2
            rw [collapseF_nws c2 cs' hw2'] at ihf
            rw [collapseF_wsnws c c2 cs' hw hw2', hasWs2_cons,
              collapseF_nws c2 cs' hw2', ihf]
            simp [headNotWs, hw2']
    · have hw' : isWsC c = false := by simpa using hw
      refine ⟨⟨?_, ?_⟩, ?_⟩
      · rw [collapseT_nws c cs hw', hasWs2_cons, hw', ihf]
        simp
      · rw [collapseT_nws c cs hw']
        simp [headNotWs, hw']
      · rw [collapseF_nws c cs hw', hasWs2_cons, hw', ihf]
        simp

theorem collapseWs_no2 (s : List Char) : hasWs2 (collapseWs s) = false :=
  (collapseWsM_no2 s).2

/-- C7 amended: in every record emitted by `parse_match_line`, the home
and away names contain no two consecutive whitespace characters (runs of
two or more are collapsed to a single space), but they may be empty. -/
theorem claim7_amended (line : List Char) (r : MatchRow)
    (h : parse_match_line line = some r) :
    hasWs2 r.home = false ∧ hasWs2 r.away = false := by
  unfold parse_match_line at h
  dsimp only at h
  repeat' split at h
  all_goals first
    | exact Option.noConfusion h
    | (obtain rfl := Option.some.inj h
       exact ⟨collapseWs_no2 _, collapseWs_no2 _⟩)

theorem claim7_amended_w :
    parse_match_line (cl "(1) Fri Jun/14 15:00 A  B 1-2  C D @ S") =
      some ⟨1, cl "Fri", cl "Jun/14", cl "15:00", cl "A B", cl "C D",
            cl "S", none, cl "1-2",
            ⟨some 1, some 2, none, none, none, none, none⟩⟩ ∧
    hasWs2 (cl "A B") = false ∧ hasWs2 (cl "C D") = false := by
  have hp : parse_match_line (cl "(1) Fri Jun/14 15:00 A  B 1-2  C D @ S") =
      some ⟨1, cl "Fri", cl "Jun/14", cl "15:00", cl "A B", cl "C D",
            cl "S", none, cl "1-2",
            ⟨some 1, some 2, none, none, none, none, none⟩⟩ := by decide
  have hw := claim7_amended (cl "(1) Fri Jun/14 15:00 A  B 1-2  C D @ S") _ hp
  exact ⟨hp, hw⟩

/-!
Classification helpers for the stateful scan, and the date-threading
lemmas behind C8/C9.
-/

/-- A line the scan treats as a match line: non-blank after rstrip, not a
header or section line, not a date line, and matching the match pattern. -/
def isCLMatchLine (l : List Char) : Bool :=
  let s := pyRstrip l
  !s.isEmpty && !(startsWithC s '=') && !(startsWithC s '#') &&
  !(startsWithC s '»') && (reMatchEnd dateRE s).isNone &&
  (reMatchEnd clMatchRE s).isSome

/-- The date a date-header line produces (the date branch of the scan):
`none` when the line does not match the date pattern or names an unknown
month. -/
def dateHeaderOf (sea l : List Char) : Option (Nat × Nat × Nat) :=
  let s := pyRstrip l
  match reMatchEnd dateRE s with
  | some (_, cs) =>
    match monthMap (capText s cs 2) with
    | some month =>
      some ((match capGet cs 4 with
             | some _ => pyInt (capText s cs 4)
             | none =>
               if month < 7 then startYearOf sea + 1 else startYearOf sea),
            month, pyInt (capText s cs 3))
    | none => none
  | none => none

/-- The date of the most recently parsed date-header line of `pre`, in
document order (`none` when there is none). -/
def specMostRecentDate (sea : List Char) (pre : List (List Char)) :
    Option (Nat × Nat × Nat) :=
  pre.foldl (fun acc l =>
    match dateHeaderOf sea l with
    | some d => some d
    | none => acc) none

/-- A match of a pattern starting with a greedy one-or-more class begins
with a character of that class. -/
theorem reMatchEnd_plusG_head (p : Char → Bool) (b : RE) (s : List Char)
    (x : Nat × Caps) (h : reMatchEnd (.cat (rePlusG p) b) s = some x) :
    ∃ c t, s = c :: t ∧ p c = true := by
  cases s with
  | nil => simp [reMatchEnd, rePlusG, reM] at h
  | cons c t =>
    by_cases hc : p c = true
    · exact ⟨c, t, rfl, hc⟩
    · simp [reMatchEnd, rePlusG, reM, hc] at h

/-- The date pattern requires a leading whitespace character. -/
theorem dateRE_none_of_head (c : Char) (t : List Char)
    (hc : isWsC c = false) : reMatchEnd dateRE (c :: t) = none := by
  cases hm : reMatchEnd dateRE (c :: t) with
  | none => rfl
  | some x =>
    obtain ⟨c', t', he, hp⟩ := reMatchEnd_plusG_head isWsC _ _ x hm
    obtain ⟨rfl, -⟩ := List.cons.inj he
    rw [hp] at hc
    exact Bool.noConfusion hc

/-- A whitespace character is not one of the marker characters. -/
theorem startsWithC_false_of_ws (c : Char) (t : List Char) (x : Char)
    (hw : isWsC c = true) (hx : isWsC x = false) :
    startsWithC (c :: t) x = false := by
  have hne : ¬(c = x) := by
    intro h
    rw [h, hx] at hw
    exact Bool.noConfusion hw
  simp [startsWithC, hne]

/-- One scan step changes `current_date` exactly as the most-recent-date
fold does: a recognized date header installs its date, every other line
leaves the date alone. -/
theorem clStep_date (sea : List Char) (st : CLState) (l : List Char) :
    (clStep sea st l).1.current_date =
      (match dateHeaderOf sea l with
       | some d => some d
       | none => st.current_date) := by
  unfold clStep dateHeaderOf
  dsimp only
  generalize pyRstrip l = s
  cases s with
  | nil =>
    have h0 : reMatchEnd dateRE ([] : List Char) = none := rfl
    simp [h0]
  | cons c t =>
    by_cases hw : isWsC c = true
    · rw [startsWithC_false_of_ws c t '=' hw (by decide),
        startsWithC_false_of_ws c t '#' hw (by decide),
        startsWithC_false_of_ws c t '»' hw (by decide)]
      simp only [List.isEmpty_cons, Bool.or_self, Bool.false_eq_true, if_false]
      cases hdm : reMatchEnd dateRE (c :: t) with
      | some x =>
        obtain ⟨e2, cs2⟩ := x
        cases hm2 : monthMap (capText (c :: t) cs2 2) with
        | some m => simp [hm2]
        | none => simp [hm2]
      | none =>
        cases hcm : reMatchEnd clMatchRE (c :: t) with
        | some x =>
          obtain ⟨e2, cs2⟩ := x
          cases hd : st.current_date <;> simp [hd]
        | none => simp
    · have hw' : isWsC c = false := by simpa using hw
      rw [dateRE_none_of_head c t hw']
      by_cases h1 : (startsWithC (c :: t) '=' || startsWithC (c :: t) '#') = true
      · simp [h1]
      · by_cases h2 : startsWithC (c :: t) '»' = true
        · simp [h1, h2]
        · simp only [List.isEmpty_cons, Bool.false_eq_true, if_false,
            h1, h2]
          cases hcm : reMatchEnd clMatchRE (c :: t) with
          | some x =>
            obtain ⟨e2, cs2⟩ := x
            cases hd : st.current_date <;> simp [hd]
          | none => simp

theorem clScanRows_append (sea : List Char) (xs ys : List (List Char))
    (st : CLState) :
    clScanRows sea (xs ++ ys) st =
      clScanRows sea xs st ++ clScanRows sea ys (clScanSt sea xs st) := by
  induction xs generalizing st with
  | nil => simp [clScanRows, clScanSt]
  | cons x xs ih => simp [clScanRows, clScanSt, ih]

/-- The scan state's date after `pre` is the most-recent-date fold. -/
theorem clScanSt_date (sea : List Char) (pre : List (List Char)) (st : CLState) :
    (clScanSt sea pre st).current_date =
      pre.foldl (fun acc l =>
        match dateHeaderOf sea l with
        | some d => some d
        | none => acc) st.current_date := by
  induction pre generalizing st with
  | nil => simp [clScanSt]
  | cons l ls ih =>
    rw [clScanSt, ih, List.foldl_cons, clStep_date]

/-- Decomposition of the match-line classification. -/
theorem isCLMatchLine_parts (l : List Char) (hm : isCLMatchLine l = true) :
    (pyRstrip l).isEmpty = false ∧
    startsWithC (pyRstrip l) '=' = false ∧
    startsWithC (pyRstrip l) '#' = false ∧
    startsWithC (pyRstrip l) '»' = false ∧
    reMatchEnd dateRE (pyRstrip l) = none ∧
    ∃ x, reMatchEnd clMatchRE (pyRstrip l) = some x := by
  unfold isCLMatchLine at hm
  dsimp only at hm
  simp only [Bool.and_eq_true, Bool.not_eq_true', Option.isNone_iff_eq_none,
    Option.isSome_iff_exists] at hm
  exact ⟨hm.1.1.1.1.1, hm.1.1.1.1.2, hm.1.1.1.2, hm.1.1.2, hm.1.2, hm.2⟩

/-- A match line seen with no date in the state is dropped and leaves the
state unchanged. -/
theorem clStep_match_none (sea : List Char) (st : CLState) (l : List Char)
    (hm : isCLMatchLine l = true) (hd : st.current_date = none) :
    clStep sea st l = (st, none) := by
  obtain ⟨h1, h2, h3, h4, h5, x, h6⟩ := isCLMatchLine_parts l hm
  obtain ⟨e, cs⟩ := x
  unfold clStep
  dsimp only
  rw [h1, h2, h3, h4, h5, h6, hd]
  rfl

/-- A match line seen with a date in the state emits one row carrying that
date and leaves the state unchanged. -/
theorem clStep_match_some (sea : List Char) (st : CLState) (l : List Char)
    (d : Nat × Nat × Nat) (hm : isCLMatchLine l = true)
    (hd : st.current_date = some d) :
    ∃ cs, clStep sea st l = (st, some (clRow sea (pyRstrip l) cs st d)) := by
  obtain ⟨h1, h2, h3, h4, h5, x, h6⟩ := isCLMatchLine_parts l hm
  obtain ⟨e, cs⟩ := x
  refine ⟨cs, ?_⟩
  unfold clStep
  dsimp only
  rw [h1, h2, h3, h4, h5, h6, hd]
  rfl

/-- C8: every emitted record's date is the one set by the most recently
parsed date header before it, and a match line before any date header is
silently dropped while the scan continues. -/
theorem claim8_date_context (sea : List Char) (pre post : List (List Char))
    (l : List Char) (hm : isCLMatchLine l = true) :
    (specMostRecentDate sea pre = none →
      parse_champions_league_txt_file (pre ++ l :: post) sea =
        parse_champions_league_txt_file (pre ++ post) sea) ∧
    (∀ d, specMostRecentDate sea pre = some d →
      ∃ r, parse_champions_league_txt_file (pre ++ [l]) sea =
        parse_champions_league_txt_file pre sea ++ [r] ∧ r.date = d) := by
  have hd : (clScanSt sea pre ⟨none, none, none⟩).current_date =
      specMostRecentDate sea pre := by
    rw [clScanSt_date]
    rfl
  constructor
  · intro h0
    unfold parse_champions_league_txt_file
    rw [clScanRows_append, clScanRows_append]
    have hstep := clStep_match_none sea (clScanSt sea pre ⟨none, none, none⟩) l
      hm (by rw [hd, h0])
    rw [clScanRows, hstep]
    simp
  · intro d h0
    unfold parse_champions_league_txt_file
    obtain ⟨cs, hstep⟩ := clStep_match_some sea
      (clScanSt sea pre ⟨none, none, none⟩) l d hm (by rw [hd, h0])
    refine ⟨clRow sea (pyRstrip l) cs (clScanSt sea pre ⟨none, none, none⟩) d,
      ?_, rfl⟩
    rw [clScanRows_append, clScanRows, hstep]
    simp [clScanRows]

theorem claim8_date_context_w :
    (parse_champions_league_txt_file [cl "  A v B 1-0"] (cl "2011-12") =
      parse_champions_league_txt_file [] (cl "2011-12")) ∧
    (∃ r, parse_champions_league_txt_file
        [cl "  Wed Sep/14 2011", cl "  A v B 1-0"] (cl "2011-12") =
      parse_champions_league_txt_file [cl "  Wed Sep/14 2011"] (cl "2011-12")
        ++ [r] ∧ r.date = (2011, 9, 14)) :=
  ⟨(claim8_date_context (cl "2011-12") [] [] (cl "  A v B 1-0")
      (by decide)).1 (by decide),
   (claim8_date_context (cl "2011-12") [cl "  Wed Sep/14 2011"] []
      (cl "  A v B 1-0") (by decide)).2 (2011, 9, 14) (by decide)⟩

/-- C9: a date header without an explicit year is assigned
season-start-year + 1 for months before July and season-start-year
otherwise; in particular month Jan in season "2011-12" yields 2012. -/
theorem claim9_year_inference :
    (∀ sea st l e cs m,
      reMatchEnd dateRE (pyRstrip l) = some (e, cs) →
      monthMap (capText (pyRstrip l) cs 2) = some m →
      capGet cs 4 = none →
      (clStep sea st l).1.current_date =
        some ((if m < 7 then startYearOf sea + 1 else startYearOf sea), m,
          pyInt (capText (pyRstrip l) cs 3))) ∧
    (clStep (cl "2011-12") ⟨none, none, none⟩
        (cl "  Wed Jan/14")).1.current_date = some (2012, 1, 14) := by
  constructor
  · intro sea st l e cs m hdm hm hy
    obtain ⟨c, t, hs, hw⟩ := reMatchEnd_plusG_head isWsC _ _ (e, cs) hdm
    unfold clStep
    dsimp only
    rw [hs] at hdm ⊢
    rw [startsWithC_false_of_ws c t '=' hw (by decide),
      startsWithC_false_of_ws c t '#' hw (by decide),
      startsWithC_false_of_ws c t '»' hw (by decide),
      hdm]
    rw [hs] at hm
    dsimp only
    rw [hm, hy]
    rfl
  · decide

theorem claim9_year_inference_w :
    (clStep (cl "2011-12") ⟨none, none, none⟩ (cl "  Wed Jan/14")).1.current_date =
      some ((if 1 < 7 then startYearOf (cl "2011-12") + 1
             else startYearOf (cl "2011-12")), 1,
        pyInt (capText (pyRstrip (cl "  Wed Jan/14"))
          [(3, 10, 12), (2, 6, 9), (1, 2, 5)] 3)) :=
  claim9_year_inference.1 (cl "2011-12") ⟨none, none, none⟩ (cl "  Wed Jan/14")
    12 [(3, 10, 12), (2, 6, 9), (1, 2, 5)] 1
    (by decide) (by decide) (by decide)
